import Mathlib

/-!
Verification development for the HVAC campaign-analytics backend
(`main.py`, `schemas.py`).

The document store is modelled as in-memory lists of records; each HTTP
handler becomes a pure function from the store (plus the request data and
the current clock) to a result, with HTTP failures as `Except` errors
carrying the status code.  Python floats are modelled as exact rationals:
on the seed generator's domain (leads between 10 and 18, and the funnel
values derived from them) Python's `int(x * r)` truncations coincide with
the exact rational floors, so the rational model is observationally
faithful to the float code there.
-/

/-- Python `int()` applied to a rational: truncation toward zero
(`num.tdiv den`; the denominator of a `Rat` is positive). -/
def pyInt (q : ℚ) : Int := q.num.tdiv q.den

/-- Mathematical floor of a rational (`num.fdiv den` rounds toward `-∞`);
used by the spec-side derivation, which speaks of `floor`. -/
def ratFloor (q : ℚ) : Int := q.num.fdiv q.den

/-- A campaign-metric document as stored in the `campaignmetric`
collection (the dict built in `seed_sample_data`, `main.py:74-91`).
Counts are `Int` because the `CreateMetric` request model accepts any
integer; money and rates are exact rationals. -/
structure MetricDoc where
  channel : String
  date : String
  leads_generated : Int
  calls_handled : Int
  conversations : Int
  booked_jobs : Int
  completed_jobs : Int
  response_time_sec : ℚ
  conversion_rate : ℚ
  appt_set_rate : ℚ
  no_show_rate : ℚ
  aov : ℚ
  revenue : ℚ
  cost : ℚ
  roi : ℚ
  csat : ℚ
deriving DecidableEq, Repr

/-- A document of the `contact` collection.  `id` is the string form of
the store-generated ObjectId; times are abstract clock values. -/
structure Contact where
  id : String
  name : String
  phone : String
  channel : String
  stage : String
  created_at : Int
  updated_at : Int
deriving DecidableEq, Repr

/-- A document of the `conversationmessage` collection; the sms/call
payload fields are optional exactly as in the seeded dicts. -/
structure Msg where
  contact_id : String
  type : String
  direction : String
  timestamp : Int
  text : Option String
  recording_url : Option String
  duration_sec : Option Int
  created_at : Int
  updated_at : Int
deriving DecidableEq, Repr

/-- The three collections used by the app. -/
structure Store where
  metrics : List MetricDoc
  contacts : List Contact
  messages : List Msg
deriving DecidableEq, Repr

/-- `date.isoformat()` of the day numbered `n`, as an abstract injective
day-to-string encoding (no claim inspects the text of a seeded date). -/
def isoDay (n : Int) : String := toString n

/-- One metric document of the seed generator (`main.py:64-91`), for day
index `i` and channel string `channel`, dated `dateStr`.  Float literals
are the exact rationals they denote in the source text; `pyInt` is
Python's `int()`. -/
def seedMetricDoc (dateStr : String) (i : Nat) (channel : String) : MetricDoc :=
  let leads : Int := 10 + (i % 5 : Nat) * (if channel == "inbound" then 1 else 2)
  let conversations : Int := pyInt ((leads : ℚ) * (if channel == "inbound" then (0.6 : ℚ) else 0.4))
  let booked : Int := pyInt ((conversations : ℚ) * (if channel == "inbound" then (0.45 : ℚ) else 0.35))
  let completed : Int := pyInt ((booked : ℚ) * 0.9)
  let aov : ℚ := if channel == "inbound" then 350.0 else 420.0
  let revenue : ℚ := (completed : ℚ) * aov
  let cost : ℚ := if channel == "outbound" then 60.0 * (leads : ℚ) else 35.0 * (leads : ℚ)
  let roi : ℚ := if cost > 0 then (revenue - cost) / cost else 0
  let response : ℚ := if channel == "inbound" then 18 else 12
  let csat : ℚ := if channel == "inbound" then 4.6 else 4.3
  { channel := channel
    date := dateStr
    leads_generated := leads
    calls_handled := leads + conversations
    conversations := conversations
    booked_jobs := booked
    completed_jobs := completed
    response_time_sec := response
    conversion_rate := (booked : ℚ) / ((max leads 1 : Int) : ℚ)
    appt_set_rate := (booked : ℚ) / ((max conversations 1 : Int) : ℚ)
    no_show_rate := 0.1
    aov := aov
    revenue := revenue
    cost := cost
    roi := roi
    csat := csat }

/-- The 28 metric documents inserted by the seed generator: day indices
0..13, each with an inbound then an outbound record, dated
`today - (13 - i)` days. -/
def seedMetricsList (today : Int) : List MetricDoc :=
  (List.range 14).map (fun (i : Nat) =>
    let d := isoDay (today - (13 - (Int.ofNat i)))
    [seedMetricDoc d i "inbound", seedMetricDoc d i "outbound"]) |>.flatten

/-- Store-generated ObjectIds of the five demo contacts, modelled as
fixed distinct 24-hex keys. -/
def demoIds : List String :=
  ["65a000000000000000000001", "65a000000000000000000002",
   "65a000000000000000000003", "65a000000000000000000004",
   "65a000000000000000000005"]

/-- The five demo contacts seeded by `seed_sample_data` (`main.py:99-112`),
with `created_at = updated_at = now`. -/
def demoContacts (now : Int) : List Contact :=
  [{ id := demoIds[0]!, name := "Alex Johnson", phone := "+1 (555) 201-3344",
     channel := "inbound", stage := "new", created_at := now, updated_at := now },
   { id := demoIds[1]!, name := "Brianna Lee", phone := "+1 (555) 448-9920",
     channel := "outbound", stage := "engaged", created_at := now, updated_at := now },
   { id := demoIds[2]!, name := "Carlos Martinez", phone := "+1 (555) 773-1102",
     channel := "inbound", stage := "qualified", created_at := now, updated_at := now },
   { id := demoIds[3]!, name := "Danielle Kim", phone := "+1 (555) 667-9088",
     channel := "outbound", stage := "booked", created_at := now, updated_at := now },
   { id := demoIds[4]!, name := "Ethan Walker", phone := "+1 (555) 334-7855",
     channel := "inbound", stage := "completed", created_at := now, updated_at := now }]

/-- The five demo conversation messages (`main.py:114-155`); timestamps
are `now` minus the source's offsets, measured in minutes. -/
def demoMessages (now : Int) : List Msg :=
  [{ contact_id := demoIds[0]!, type := "sms", direction := "inbound",
     timestamp := now - 50, text := some "Hi, my AC stopped working today. Can you help?",
     recording_url := none, duration_sec := none, created_at := now, updated_at := now },
   { contact_id := demoIds[0]!, type := "sms", direction := "outbound",
     timestamp := now - 48, text := some "Absolutely. What time today works to send a tech?",
     recording_url := none, duration_sec := none, created_at := now, updated_at := now },
   { contact_id := demoIds[0]!, type := "call", direction := "outbound",
     timestamp := now - 40, text := none,
     recording_url := some "https://file-examples.com/storage/fe1b0a8f03f6d0b8f4d1f9e/2017/11/file_example_MP3_700KB.mp3",
     duration_sec := some 120, created_at := now, updated_at := now },
   { contact_id := demoIds[1]!, type := "sms", direction := "outbound",
     timestamp := now - 120, text := some "We have a tune-up special this week if you\x27d like to book a slot.",
     recording_url := none, duration_sec := none, created_at := now, updated_at := now },
   { contact_id := demoIds[1]!, type := "sms", direction := "inbound",
     timestamp := now - 105, text := some "Yes please. Tomorrow afternoon?",
     recording_url := none, duration_sec := none, created_at := now, updated_at := now }]

/-- `seed_sample_data` (`main.py:54-155`) on a present store: inserts the
28 seed metrics when the metric collection is empty, and the demo
contacts plus their conversation messages when the contact collection is
empty (the guard inspects only the contact collection). -/
def seed_sample_data (today : Int) (now : Int) (s : Store) : Store :=
  let s1 := if s.metrics.isEmpty then { s with metrics := s.metrics ++ seedMetricsList today } else s
  if s1.contacts.isEmpty then
    { s1 with contacts := s1.contacts ++ demoContacts now,
              messages := s1.messages ++ demoMessages now }
  else s1

/-- The aggregate returned by `get_summary`'s inner `agg`
(`main.py:183-190`). -/
structure AggOut where
  leads : Int
  booked : Int
  revenue : ℚ
  roi : ℚ
deriving DecidableEq, Repr

/-- The filtering step of `agg`: keep every document when no channel is
given, else those whose `channel` equals the filter. -/
def filterByChannel (docs : List MetricDoc) (filter_channel : Option String) : List MetricDoc :=
  docs.filter (fun d => match filter_channel with
    | none => true
    | some c => d.channel == c)

/-- `agg` from `get_summary` (`main.py:183-190`): sums
`leads_generated`, `booked_jobs`, `revenue` and `cost` over the filtered
documents and recomputes roi from the summed revenue and cost. -/
def agg (docs : List MetricDoc) (filter_channel : Option String) : AggOut :=
  let f := filterByChannel docs filter_channel
  let leads := (f.map MetricDoc.leads_generated).sum
  let booked := (f.map MetricDoc.booked_jobs).sum
  let revenue := (f.map MetricDoc.revenue).sum
  let cost := (f.map MetricDoc.cost).sum
  { leads := leads, booked := booked, revenue := revenue,
    roi := if cost > 0 then (revenue - cost) / cost else 0 }

/-- The body of a summary response: totals plus the two per-channel
aggregates. -/
structure Summary where
  totals : AggOut
  inbound : AggOut
  outbound : AggOut
deriving DecidableEq, Repr

/-- `get_summary` (`main.py:168-197`) on a present store: if the metric
collection is empty it first runs `seed_sample_data` and re-reads, then
aggregates unfiltered, inbound and outbound.  Returns the store as
mutated by the handler together with the response. -/
def get_summary (today : Int) (now : Int) (s : Store) : Store × Summary :=
  let docs := s.metrics
  let sd : Store × List MetricDoc :=
    if docs.isEmpty then
      let s' := seed_sample_data today now s
      (s', s'.metrics)
    else (s, docs)
  (sd.1, { totals := agg sd.2 none,
           inbound := agg sd.2 (some "inbound"),
           outbound := agg sd.2 (some "outbound") })

/-- Stable insertion of `a` into `l`: `a` is placed before the first
element it compares `le` to, so elements equal to `a` that were already
in `l` stay behind it. -/
def insertBy {α : Type} (le : α → α → Bool) (a : α) : List α → List α
  | [] => [a]
  | b :: l => if le a b then a :: b :: l else b :: insertBy le a l

/-- Stable insertion sort with comparison `le`; models Python's stable
`list.sort` and the store's ascending sort, whose observable contract
here is sortedness plus permutation of the input. -/
def sortBy {α : Type} (le : α → α → Bool) : List α → List α
  | [] => []
  | a :: l => insertBy le a (sortBy le l)

/-- One entry of the timeseries response (`main.py:214-219`). -/
structure SeriesPoint where
  date : String
  leads : Int
  booked : Int
  revenue : ℚ
deriving DecidableEq, Repr

/-- The projection of a stored document to a timeseries entry
(`main.py:214-219`). -/
def toSeriesPoint (d : MetricDoc) : SeriesPoint :=
  { date := d.date, leads := d.leads_generated, booked := d.booked_jobs, revenue := d.revenue }

/-- Comparison used by `docs.sort(key=lambda d: d.get("date"))`:
lexicographic order on the ISO date strings. -/
def dateLe (a b : MetricDoc) : Bool := decide (a.date ≤ b.date)

/-- `get_timeseries` (`main.py:200-220`) on a present store.  Python's
`{"channel": channel} if channel else {}` treats the empty string like
`None`, so an empty filter string selects every document. -/
def get_timeseries (s : Store) (channel : Option String) : List SeriesPoint :=
  let docs := match channel with
    | none => s.metrics
    | some c => if c == "" then s.metrics else s.metrics.filter (fun d => d.channel == c)
  (sortBy dateLe docs).map toSeriesPoint

/-- A string is accepted by `bson.ObjectId` exactly when it is a 24-digit
hexadecimal string (the only well-formed string document keys). -/
def isValidObjectId (s : String) : Bool :=
  s.length == 24 && s.toList.all (fun c => c.isDigit || ("abcdefABCDEF".toList.contains c))

/-- `update_one({"_id": oid}, {"$set": ...}})` on the contact collection:
patch stage and `updated_at` of the first contact whose key matches. -/
def updateOneContact (cs : List Contact) (cid : String) (stage : String) (now : Int) : List Contact :=
  match cs with
  | [] => []
  | c :: rest =>
      if c.id == cid then { c with stage := stage, updated_at := now } :: rest
      else c :: updateOneContact rest cid stage now

/-- `update_contact_stage` (`main.py:264-275`) on a present store:
400 on a malformed id, 404 when no contact matches, otherwise the patched
store. -/
def update_contact_stage (s : Store) (contact_id : String) (stage : String) (now : Int) :
    Except Nat Store :=
  if isValidObjectId contact_id then
    let matched := s.contacts.any (fun c => c.id == contact_id)
    let s' := { s with contacts := updateOneContact s.contacts contact_id stage now }
    if matched then .ok s' else .error 404
  else .error 400

/-- The frame relation of a stage update: the patched contact keeps its
identity fields, an unmatched contact is untouched, and any change is
exactly the stage/updated_at patch on the matched key. -/
def framePatch (cid st : String) (now : Int) (c c' : Contact) : Prop :=
  c'.id = c.id ∧ c'.name = c.name ∧ c'.phone = c.phone ∧ c'.channel = c.channel ∧
  c'.created_at = c.created_at ∧ (c.id ≠ cid → c' = c) ∧
  (c' ≠ c → c.id = cid ∧ c'.stage = st ∧ c'.updated_at = now)

/-- Comparison used by `.sort("timestamp", 1)` on conversation
messages. -/
def tsLe (a b : Msg) : Bool := decide (a.timestamp ≤ b.timestamp)

/-- `get_conversation` (`main.py:277-302`) on a present store: 400 on a
malformed id, 404 when the contact is missing, otherwise the contact
together with its messages sorted ascending by timestamp. -/
def get_conversation (s : Store) (contact_id : String) : Except Nat (Contact × List Msg) :=
  if isValidObjectId contact_id then
    match s.contacts.find? (fun c => c.id == contact_id) with
    | none => .error 404
    | some contact =>
        .ok (contact, sortBy tsLe (s.messages.filter (fun m => m.contact_id == contact_id)))
  else .error 400

/-- The payload of a `POST /api/metrics` request after JSON typing. -/
structure MetricBody where
  channel : String
  leads_generated : Int
  calls_handled : Int
  conversations : Int
  booked_jobs : Int
  completed_jobs : Int
  response_time_sec : ℚ
  conversion_rate : ℚ
  appt_set_rate : ℚ
  no_show_rate : ℚ
  aov : ℚ
  revenue : ℚ
  cost : ℚ
  roi : ℚ
  csat : ℚ
deriving DecidableEq, Repr

/-- Constraints the `CreateMetric` request model (`main.py:23-39`)
enforces beyond JSON typing: none — `channel` is a bare `str` and no
numeric field carries a range bound, so every typed body is accepted. -/
def CreateMetric_accepts (_b : MetricBody) : Bool := true

/-- Constraints declared by the `CampaignMetric` schema
(`schemas.py:20-48`): channel in the closed enumeration, non-negative
counts and money, rates in [0,1], csat in [0,5]. -/
def CampaignMetric_accepts (b : MetricBody) : Bool :=
  (b.channel == "inbound" || b.channel == "outbound") &&
  decide (0 ≤ b.leads_generated) && decide (0 ≤ b.calls_handled) &&
  decide (0 ≤ b.conversations) && decide (0 ≤ b.booked_jobs) &&
  decide (0 ≤ b.completed_jobs) && decide (0 ≤ b.response_time_sec) &&
  decide (0 ≤ b.conversion_rate) && decide (b.conversion_rate ≤ 1) &&
  decide (0 ≤ b.appt_set_rate) && decide (b.appt_set_rate ≤ 1) &&
  decide (0 ≤ b.no_show_rate) && decide (b.no_show_rate ≤ 1) &&
  decide (0 ≤ b.aov) && decide (0 ≤ b.revenue) && decide (0 ≤ b.cost) &&
  decide (0 ≤ b.csat) && decide (b.csat ≤ 5)

/-- The stage enumeration of `CreateContact` and `UpdateStage`
(`main.py:41-48`). -/
def validStage (s : String) : Bool :=
  s == "new" || s == "engaged" || s == "qualified" || s == "booked" || s == "completed"

/-- The channel enumeration of `CreateContact` (`main.py:44`). -/
def validChannel (c : String) : Bool := c == "inbound" || c == "outbound"

/-- Constraints the `CreateContact` request model (`main.py:41-45`)
enforces beyond JSON typing: `channel` and `stage` are `Literal` types,
so a body outside the enumerations is rejected (HTTP 422) at the
validation boundary. -/
def CreateContact_accepts (_name _phone channel stage : String) : Bool :=
  validChannel channel && validStage stage

/-- The closed channel enumeration of the data model. -/
inductive Channel
  | inbound
  | outbound
deriving DecidableEq, Repr, Fintype

/-- The channel's wire string. -/
def Channel.toStr : Channel → String
  | .inbound => "inbound"
  | .outbound => "outbound"

/-- The fields of a seeded metric record that the spec's derivation in
section 4.1 fixes. -/
structure SpecRecord where
  leads : Int
  conversations : Int
  booked : Int
  completed : Int
  revenue : ℚ
  cost : ℚ
  roi : ℚ
deriving DecidableEq, Repr

/-- The spec's derivation of a seeded metric record, written from the
spec's own words (section 4.1): leads from the day index, funnel values
by flooring, revenue, cost and roi from them.  `ratFloor` is the
mathematical floor the spec's `floor` denotes. -/
def specDerivation (i : Nat) (ch : Channel) : SpecRecord :=
  let leads : Int := 10 + (i % 5 : Nat) * (match ch with | .inbound => 1 | .outbound => 2)
  let conversations : Int :=
    ratFloor ((leads : ℚ) * (match ch with | .inbound => (0.6 : ℚ) | .outbound => 0.4))
  let booked : Int :=
    ratFloor ((conversations : ℚ) * (match ch with | .inbound => (0.45 : ℚ) | .outbound => 0.35))
  let completed : Int := ratFloor ((booked : ℚ) * 0.9)
  let aov : ℚ := match ch with | .inbound => 350.0 | .outbound => 420.0
  let revenue : ℚ := (completed : ℚ) * aov
  let cost : ℚ := (match ch with | .inbound => (35.0 : ℚ) | .outbound => 60.0) * (leads : ℚ)
  let roi : ℚ := if cost > 0 then (revenue - cost) / cost else 0
  { leads := leads, conversations := conversations, booked := booked,
    completed := completed, revenue := revenue, cost := cost, roi := roi }

/-- The store with all three collections empty (a cold start before any
seeding). -/
def emptyStore : Store := { metrics := [], contacts := [], messages := [] }

/-- A neutral metric document used to build concrete test stores. -/
def wDocZero : MetricDoc :=
  { channel := "inbound", date := "2024-01-01", leads_generated := 0, calls_handled := 0,
    conversations := 0, booked_jobs := 0, completed_jobs := 0, response_time_sec := 0,
    conversion_rate := 0, appt_set_rate := 0, no_show_rate := 0, aov := 0,
    revenue := 0, cost := 0, roi := 0, csat := 0 }

/-- A concrete inbound metric document with revenue 6 and cost 2. -/
def wDocIn : MetricDoc :=
  { wDocZero with
    channel := "inbound", date := "2024-01-02",
    leads_generated := 3, booked_jobs := 1, revenue := 6, cost := 2 }

/-- A concrete outbound metric document with revenue 1 and cost 4. -/
def wDocOut : MetricDoc :=
  { wDocZero with
    channel := "outbound", date := "2024-01-01",
    leads_generated := 2, booked_jobs := 2, revenue := 1, cost := 4 }

/-- A contact with a well-formed 24-hex key, used in concrete stores. -/
def wContact : Contact :=
  { id := "650000000000000000000001", name := "Pat Quinn", phone := "+1 (555) 111-2222",
    channel := "inbound", stage := "new", created_at := 3, updated_at := 3 }

/-- A message attached to `wContact`. -/
def wMsg : Msg :=
  { contact_id := "650000000000000000000001", type := "sms", direction := "inbound",
    timestamp := 9, text := some "hello", recording_url := none, duration_sec := none,
    created_at := 9, updated_at := 9 }

/-- A concrete store with one metric, one contact and one message. -/
def wStore : Store := { metrics := [wDocIn], contacts := [wContact], messages := [wMsg] }

/-- Two distinct messages for `wContact` sharing one timestamp (insertion
order: `tieMsgA` first). -/
def tieMsgA : Msg := { wMsg with timestamp := 5, text := some "first" }

/-- The second message of the tied pair. -/
def tieMsgB : Msg := { wMsg with timestamp := 5, text := some "second" }

/-- A store whose conversation for `wContact` has two equal-timestamp
messages. -/
def tieStore : Store := { metrics := [], contacts := [wContact], messages := [tieMsgA, tieMsgB] }

/-- A `POST /api/metrics` body with a channel outside the closed
enumeration and a negative count: `schemas.CampaignMetric` rejects it,
while the endpoint's `CreateMetric` model accepts it. -/
def badMetricBody : MetricBody :=
  { channel := "purple", leads_generated := -5, calls_handled := 0, conversations := 0,
    booked_jobs := 0, completed_jobs := 0, response_time_sec := 0, conversion_rate := 2,
    appt_set_rate := 0, no_show_rate := 0, aov := 0, revenue := 0, cost := 0,
    roi := 0, csat := 0 }

/-- Inserting with `insertBy` permutes: the result is the element
consed onto the list, up to permutation. -/
theorem insertBy_perm {α : Type} (le : α → α → Bool) (a : α) (l : List α) :
    (insertBy le a l).Perm (a :: l) := by
  induction l with
  | nil => exact List.Perm.refl _
  | cons b t ih =>
      by_cases h : le a b = true
      · simp only [insertBy, if_pos h]
        exact List.Perm.refl _
      · simp only [insertBy, if_neg h]
        exact (ih.cons b).trans (List.Perm.swap a b t)

/-- `sortBy` permutes its input. -/
theorem sortBy_perm {α : Type} (le : α → α → Bool) (l : List α) : (sortBy le l).Perm l := by
  induction l with
  | nil => exact List.Perm.refl _
  | cons a t ih => exact (insertBy_perm le a (sortBy le t)).trans (ih.cons a)

/-- `insertBy` preserves sortedness for a transitive, total comparison. -/
theorem pairwise_insertBy {α : Type} (le : α → α → Bool)
    (htrans : ∀ x y z, le x y = true → le y z = true → le x z = true)
    (htot : ∀ x y, le x y = false → le y x = true)
    (a : α) (l : List α) (h : l.Pairwise (fun x y => le x y = true)) :
    (insertBy le a l).Pairwise (fun x y => le x y = true) := by
  induction l with
  | nil => simp [insertBy]
  | cons b t ih =>
      rcases List.pairwise_cons.mp h with ⟨hb, ht⟩
      by_cases hab : le a b = true
      · simp only [insertBy, if_pos hab]
        refine List.pairwise_cons.mpr ⟨?_, h⟩
        intro x hx
        rcases List.mem_cons.mp hx with hxb | hx'
        · exact hxb ▸ hab
        · exact htrans a b x hab (hb x hx')
      · simp only [insertBy, if_neg hab]
        refine List.pairwise_cons.mpr ⟨?_, ih ht⟩
        intro x hx
        rcases List.mem_cons.mp ((insertBy_perm le a t).mem_iff.mp hx) with hxa | hx'
        · exact hxa ▸ htot a b (Bool.eq_false_iff.mpr hab)
        · exact hb x hx'

/-- `sortBy` sorts, for a transitive, total comparison. -/
theorem pairwise_sortBy {α : Type} (le : α → α → Bool)
    (htrans : ∀ x y z, le x y = true → le y z = true → le x z = true)
    (htot : ∀ x y, le x y = false → le y x = true)
    (l : List α) : (sortBy le l).Pairwise (fun x y => le x y = true) := by
  induction l with
  | nil => simp [sortBy]
  | cons a t ih => exact pairwise_insertBy le htrans htot a _ ih

/-- The date comparison is transitive. -/
theorem dateLe_trans : ∀ x y z, dateLe x y = true → dateLe y z = true → dateLe x z = true := by
  intro x y z hxy hyz
  simp only [dateLe, decide_eq_true_eq] at *
  exact le_trans hxy hyz

/-- The date comparison is total. -/
theorem dateLe_total : ∀ x y, dateLe x y = false → dateLe y x = true := by
  intro x y h
  simp only [dateLe, decide_eq_false_iff_not, decide_eq_true_eq] at *
  exact le_of_not_le h

/-- The timestamp comparison is transitive. -/
theorem tsLe_trans : ∀ x y z, tsLe x y = true → tsLe y z = true → tsLe x z = true := by
  intro x y z hxy hyz
  simp only [tsLe, decide_eq_true_eq] at *
  exact le_trans hxy hyz

/-- The timestamp comparison is total. -/
theorem tsLe_total : ∀ x y, tsLe x y = false → tsLe y x = true := by
  intro x y h
  simp only [tsLe, decide_eq_false_iff_not, decide_eq_true_eq] at *
  exact le_of_not_le h

/-- A date-sorted projection is sorted and permutes the projected
input, for any document list. -/
theorem timeseries_general (X : List MetricDoc) :
    ((sortBy dateLe X).map toSeriesPoint).Pairwise (fun a b => a.date ≤ b.date) ∧
    ((sortBy dateLe X).map toSeriesPoint).Perm (X.map toSeriesPoint) := by
  constructor
  · exact List.Pairwise.map _ (fun a b hab => of_decide_eq_true hab)
      (pairwise_sortBy dateLe dateLe_trans dateLe_total X)
  · exact (sortBy_perm dateLe X).map _

/-- C7: for every set of stored metric records in any order and every
optional channel filter, the timeseries output is sorted non-decreasing
by date in ISO-string order and contains exactly the projections of the
channel-filtered records. -/
theorem C7_timeseries_sorted_and_complete
    (docs : List MetricDoc) (cs : List Contact) (ms : List Msg) (ch : Option Channel) :
    (get_timeseries { metrics := docs, contacts := cs, messages := ms }
        (ch.map Channel.toStr)).Pairwise (fun a b => a.date ≤ b.date) ∧
    (get_timeseries { metrics := docs, contacts := cs, messages := ms }
        (ch.map Channel.toStr)).Perm
      ((docs.filter (fun d => match ch with
          | none => true
          | some c => d.channel == c.toStr)).map toSeriesPoint) := by
  cases ch with
  | none =>
      refine ⟨(timeseries_general docs).1, ?_⟩
      simpa using (timeseries_general docs).2
  | some c =>
      cases c
      · exact ⟨(timeseries_general _).1, (timeseries_general _).2⟩
      · exact ⟨(timeseries_general _).1, (timeseries_general _).2⟩

/-- With no filter, `agg` keeps every document. -/
theorem filterByChannel_none (docs : List MetricDoc) : filterByChannel docs none = docs := by
  simp [filterByChannel]

/-- With a filter, `agg` keeps the documents of that channel. -/
theorem filterByChannel_some (docs : List MetricDoc) (c : String) :
    filterByChannel docs (some c) = docs.filter (fun d => d.channel == c) := rfl

/-- A sum over documents whose channel is inbound or outbound splits
into the inbound-filtered and outbound-filtered sums. -/
theorem sum_split {M : Type} [AddCommMonoid M] (f : MetricDoc → M) (docs : List MetricDoc)
    (h : ∀ d ∈ docs, d.channel = "inbound" ∨ d.channel = "outbound") :
    (docs.map f).sum =
      ((docs.filter (fun d => d.channel == "inbound")).map f).sum +
      ((docs.filter (fun d => d.channel == "outbound")).map f).sum := by
  induction docs with
  | nil => simp
  | cons d t ih =>
      have ht := fun x hx => h x (List.mem_cons_of_mem d hx)
      rcases h d (List.mem_cons_self d t) with hin | hout
      · have hb1 : (d.channel == "inbound") = true := by simp [hin]
        have hb2 : (d.channel == "outbound") = false := by simp [hin]
        simp only [List.filter_cons, hb1, hb2, if_true, if_false, List.map_cons, List.sum_cons,
          cond_true, cond_false]
        rw [ih ht]
        exact (add_assoc (f d) _ _).symm
      · have hb1 : (d.channel == "inbound") = false := by simp [hout]
        have hb2 : (d.channel == "outbound") = true := by simp [hout]
        simp only [List.filter_cons, hb1, hb2, if_true, if_false, List.map_cons, List.sum_cons,
          cond_true, cond_false]
        rw [ih ht]
        exact add_left_comm (f d) _ _

/-- C2: for every set of metric records (whose channel lies in the data
model's closed enumeration), the unfiltered summarize result equals the
component-wise sum of the inbound- and outbound-filtered results on the
leads, booked and revenue fields. -/
theorem C2_summary_additive (docs : List MetricDoc)
    (h : ∀ d ∈ docs, d.channel = "inbound" ∨ d.channel = "outbound") :
    (agg docs none).leads = (agg docs (some "inbound")).leads + (agg docs (some "outbound")).leads ∧
    (agg docs none).booked = (agg docs (some "inbound")).booked + (agg docs (some "outbound")).booked ∧
    (agg docs none).revenue =
      (agg docs (some "inbound")).revenue + (agg docs (some "outbound")).revenue := by
  refine ⟨?_, ?_, ?_⟩ <;>
  · simp only [agg, filterByChannel_none, filterByChannel_some]
    exact sum_split _ docs h

/-- Instantiation of `C2_summary_additive` at a concrete two-record
store, hypotheses discharged by evaluation. -/
theorem C2_summary_additive_witness :
    (∀ d ∈ [wDocIn, wDocOut], d.channel = "inbound" ∨ d.channel = "outbound") ∧
    (agg [wDocIn, wDocOut] none).leads =
      (agg [wDocIn, wDocOut] (some "inbound")).leads +
      (agg [wDocIn, wDocOut] (some "outbound")).leads :=
  ⟨by decide, (C2_summary_additive [wDocIn, wDocOut] (by decide)).1⟩

/-- C3: for every metric set and channel filter, the summarize roi is 0
whenever the summed cost of the filtered set is 0 and otherwise equals
(total revenue − total cost) / total cost; the empty input yields the
all-zero result. -/
theorem C3_roi_recomputed (docs : List MetricDoc) (fc : Option String)
    (h : ∀ d ∈ docs, 0 ≤ d.cost) :
    (((filterByChannel docs fc).map MetricDoc.cost).sum = 0 → (agg docs fc).roi = 0) ∧
    (((filterByChannel docs fc).map MetricDoc.cost).sum ≠ 0 →
      (agg docs fc).roi =
        (((filterByChannel docs fc).map MetricDoc.revenue).sum -
         ((filterByChannel docs fc).map MetricDoc.cost).sum) /
        ((filterByChannel docs fc).map MetricDoc.cost).sum) ∧
    agg [] fc = { leads := 0, booked := 0, revenue := 0, roi := 0 } := by
  have hnn : 0 ≤ ((filterByChannel docs fc).map MetricDoc.cost).sum := by
    apply List.sum_nonneg
    intro x hx
    rcases List.mem_map.mp hx with ⟨d, hd, rfl⟩
    exact h d (List.mem_filter.mp hd).1
  refine ⟨?_, ?_, ?_⟩
  · intro h0
    simp only [agg]
    rw [if_neg]
    rw [h0]
    exact lt_irrefl 0
  · intro hne
    have hpos : 0 < ((filterByChannel docs fc).map MetricDoc.cost).sum :=
      lt_of_le_of_ne hnn (Ne.symm hne)
    simp only [agg]
    rw [if_pos hpos]
  · simp [agg, filterByChannel]

unseal Rat.mul Rat.add Rat.sub Rat.inv Rat.ofScientific in
/-- Instantiation of `C3_roi_recomputed` at a concrete one-record store
with cost 2, hypotheses discharged by evaluation. -/
theorem C3_roi_recomputed_witness :
    (∀ d ∈ [wDocIn], (0 : ℚ) ≤ d.cost) ∧
    ((filterByChannel [wDocIn] none).map MetricDoc.cost).sum ≠ 0 ∧
    (agg [wDocIn] none).roi =
      (((filterByChannel [wDocIn] none).map MetricDoc.revenue).sum -
       ((filterByChannel [wDocIn] none).map MetricDoc.cost).sum) /
      ((filterByChannel [wDocIn] none).map MetricDoc.cost).sum :=
  ⟨by decide, by decide, (C3_roi_recomputed [wDocIn] none (by decide)).2.1 (by decide)⟩

unseal Rat.mul Rat.add Rat.sub Rat.inv Rat.ofScientific in
/-- The code's seed record agrees field-wise with the spec derivation on
every day index and channel (evaluated at a fixed date string; the
derived fields do not depend on the date). -/
theorem seed_spec_aux : ∀ (i : Fin 14) (ch : Channel),
    (seedMetricDoc "d" i ch.toStr).leads_generated = (specDerivation i ch).leads ∧
    (seedMetricDoc "d" i ch.toStr).conversations = (specDerivation i ch).conversations ∧
    (seedMetricDoc "d" i ch.toStr).booked_jobs = (specDerivation i ch).booked ∧
    (seedMetricDoc "d" i ch.toStr).completed_jobs = (specDerivation i ch).completed ∧
    (seedMetricDoc "d" i ch.toStr).revenue = (specDerivation i ch).revenue ∧
    (seedMetricDoc "d" i ch.toStr).cost = (specDerivation i ch).cost ∧
    (seedMetricDoc "d" i ch.toStr).roi = (specDerivation i ch).roi := by decide

unseal Rat.mul Rat.add Rat.sub Rat.inv Rat.ofScientific in
/-- The concrete day-0 record values, evaluated at a fixed date string. -/
theorem seed_day0_aux :
    (seedMetricDoc "d" 0 "inbound").leads_generated = 10 ∧
    (seedMetricDoc "d" 0 "inbound").conversations = 6 ∧
    (seedMetricDoc "d" 0 "inbound").booked_jobs = 2 ∧
    (seedMetricDoc "d" 0 "inbound").completed_jobs = 1 ∧
    (seedMetricDoc "d" 0 "inbound").revenue = 350 ∧
    (seedMetricDoc "d" 0 "inbound").cost = 350 ∧
    (seedMetricDoc "d" 0 "inbound").roi = 0 ∧
    (seedMetricDoc "d" 0 "outbound").leads_generated = 10 ∧
    (seedMetricDoc "d" 0 "outbound").conversations = 4 ∧
    (seedMetricDoc "d" 0 "outbound").booked_jobs = 1 ∧
    (seedMetricDoc "d" 0 "outbound").completed_jobs = 0 ∧
    (seedMetricDoc "d" 0 "outbound").revenue = 0 ∧
    (seedMetricDoc "d" 0 "outbound").cost = 600 ∧
    (seedMetricDoc "d" 0 "outbound").roi = -1 := by decide

/-- C1: for every day index 0..13 and channel, the seed record equals
the spec's derivation on leads, conversations, booked, completed,
revenue, cost and roi; at day index 0 the inbound record is
(10, 6, 2, 1, 350, 350, 0) and the outbound record is
(10, 4, 1, 0, 0, 600, -1); and re-running the derivation with the same
today yields identical records. -/
theorem C1_seed_matches_spec :
    (∀ (i : Fin 14) (ch : Channel) (ds : String),
      (seedMetricDoc ds i ch.toStr).leads_generated = (specDerivation i ch).leads ∧
      (seedMetricDoc ds i ch.toStr).conversations = (specDerivation i ch).conversations ∧
      (seedMetricDoc ds i ch.toStr).booked_jobs = (specDerivation i ch).booked ∧
      (seedMetricDoc ds i ch.toStr).completed_jobs = (specDerivation i ch).completed ∧
      (seedMetricDoc ds i ch.toStr).revenue = (specDerivation i ch).revenue ∧
      (seedMetricDoc ds i ch.toStr).cost = (specDerivation i ch).cost ∧
      (seedMetricDoc ds i ch.toStr).roi = (specDerivation i ch).roi) ∧
    (∀ ds : String,
      (seedMetricDoc ds 0 "inbound").leads_generated = 10 ∧
      (seedMetricDoc ds 0 "inbound").conversations = 6 ∧
      (seedMetricDoc ds 0 "inbound").booked_jobs = 2 ∧
      (seedMetricDoc ds 0 "inbound").completed_jobs = 1 ∧
      (seedMetricDoc ds 0 "inbound").revenue = 350 ∧
      (seedMetricDoc ds 0 "inbound").cost = 350 ∧
      (seedMetricDoc ds 0 "inbound").roi = 0 ∧
      (seedMetricDoc ds 0 "outbound").leads_generated = 10 ∧
      (seedMetricDoc ds 0 "outbound").conversations = 4 ∧
      (seedMetricDoc ds 0 "outbound").booked_jobs = 1 ∧
      (seedMetricDoc ds 0 "outbound").completed_jobs = 0 ∧
      (seedMetricDoc ds 0 "outbound").revenue = 0 ∧
      (seedMetricDoc ds 0 "outbound").cost = 600 ∧
      (seedMetricDoc ds 0 "outbound").roi = -1) ∧
    (∀ today : Int, seedMetricsList today = seedMetricsList today) :=
  ⟨fun i ch _ => seed_spec_aux i ch, fun _ => seed_day0_aux, fun _ => rfl⟩

/-- Every member of the seeded metric list is a `seedMetricDoc` for some
day index below 14 and some channel. -/
theorem mem_seedMetricsList (today : Int) (doc : MetricDoc) (hd : doc ∈ seedMetricsList today) :
    ∃ (i : Fin 14) (ch : Channel),
      doc = seedMetricDoc (isoDay (today - (13 - (Int.ofNat i)))) i ch.toStr := by
  simp only [seedMetricsList, List.mem_flatten, List.mem_map] at hd
  rcases hd with ⟨sub, ⟨i, hi, rfl⟩, hdoc⟩
  simp only [List.mem_range] at hi
  rcases (by simpa using hdoc : _ ∨ _) with h | h
  · exact ⟨⟨i, hi⟩, Channel.inbound, h⟩
  · exact ⟨⟨i, hi⟩, Channel.outbound, h⟩

unseal Rat.mul Rat.add Rat.sub Rat.inv Rat.ofScientific in
/-- The derived-field invariants of a seed record, evaluated over all
day indices and channels at a fixed date string. -/
theorem seed_derived_aux : ∀ (i : Fin 14) (ch : Channel),
    (seedMetricDoc "d" i ch.toStr).calls_handled =
      (seedMetricDoc "d" i ch.toStr).leads_generated +
      (seedMetricDoc "d" i ch.toStr).conversations ∧
    (seedMetricDoc "d" i ch.toStr).conversion_rate =
      ((seedMetricDoc "d" i ch.toStr).booked_jobs : ℚ) /
        ((max (seedMetricDoc "d" i ch.toStr).leads_generated 1 : Int) : ℚ) ∧
    (seedMetricDoc "d" i ch.toStr).appt_set_rate =
      ((seedMetricDoc "d" i ch.toStr).booked_jobs : ℚ) /
        ((max (seedMetricDoc "d" i ch.toStr).conversations 1 : Int) : ℚ) ∧
    (seedMetricDoc "d" i ch.toStr).no_show_rate = 0.1 := by decide

/-- C9: every metric record produced by the seed generator satisfies
calls_handled = leads_generated + conversations,
conversion_rate = booked / max(leads, 1),
appt_set_rate = booked / max(conversations, 1) and no_show_rate = 0.1. -/
theorem C9_seed_derived_fields (today : Int) (doc : MetricDoc) (hd : doc ∈ seedMetricsList today) :
    doc.calls_handled = doc.leads_generated + doc.conversations ∧
    doc.conversion_rate = (doc.booked_jobs : ℚ) / ((max doc.leads_generated 1 : Int) : ℚ) ∧
    doc.appt_set_rate = (doc.booked_jobs : ℚ) / ((max doc.conversations 1 : Int) : ℚ) ∧
    doc.no_show_rate = 0.1 := by
  rcases mem_seedMetricsList today doc hd with ⟨i, ch, rfl⟩
  exact seed_derived_aux i ch

unseal Rat.mul Rat.add Rat.sub Rat.inv Rat.ofScientific in
/-- Instantiation of `C9_seed_derived_fields` at the day-0 inbound seed
record, membership discharged by evaluation. -/
theorem C9_seed_derived_fields_witness :
    (seedMetricDoc (isoDay 0) 0 "inbound" ∈ seedMetricsList 13) ∧
    (seedMetricDoc (isoDay 0) 0 "inbound").calls_handled =
      (seedMetricDoc (isoDay 0) 0 "inbound").leads_generated +
      (seedMetricDoc (isoDay 0) 0 "inbound").conversations :=
  ⟨by decide, (C9_seed_derived_fields 13 _ (by decide)).1⟩

/-- C4: the metric-creation boundary accepts a body whose channel lies
outside the closed enumeration and whose count is negative, although the
`CampaignMetric` schema declares exactly those constraints and the
contact-creation boundary enforces its enumerations; so enum and range
violations on POST /api/metrics are not rejected with a 422. -/
theorem C4_metric_validation_gap :
    CreateMetric_accepts badMetricBody = true ∧
    CampaignMetric_accepts badMetricBody = false ∧
    validChannel "purple" = false ∧
    CreateContact_accepts "Alex Johnson" "+1 (555) 201-3344" "purple" "new" = false ∧
    CreateContact_accepts "Alex Johnson" "+1 (555) 201-3344" "inbound" "later" = false ∧
    CreateContact_accepts "Alex Johnson" "+1 (555) 201-3344" "inbound" "new" = true := by
  decide

/-- If some contact matches the key, the updated list contains a contact
with that key whose stage and `updated_at` are the new values. -/
theorem updateOneContact_found (cs : List Contact) (cid st : String) (now : Int)
    (c : Contact) (hc : c ∈ cs) (hid : c.id = cid) :
    ∃ c' ∈ updateOneContact cs cid st now, c'.id = cid ∧ c'.stage = st ∧ c'.updated_at = now := by
  induction cs with
  | nil => cases hc
  | cons b t ih =>
      by_cases hb : (b.id == cid) = true
      · refine ⟨{ b with stage := st, updated_at := now }, ?_, eq_of_beq hb, rfl, rfl⟩
        simp [updateOneContact, hb]
      · simp only [updateOneContact, if_neg hb]
        rcases List.mem_cons.mp hc with hcb | hct
        · exact absurd (hcb ▸ hid) (by simpa using hb)
        · rcases ih hct with ⟨c', hc', hprop⟩
          exact ⟨c', List.mem_cons_of_mem b hc', hprop⟩

/-- An untouched list is related to itself by the frame relation. -/
theorem framePatch_refl (cid st : String) (now : Int) (t : List Contact) :
    List.Forall₂ (framePatch cid st now) t t := by
  induction t with
  | nil => exact List.Forall₂.nil
  | cons b r ih =>
      exact List.Forall₂.cons
        ⟨rfl, rfl, rfl, rfl, rfl, fun _ => rfl, fun hne => absurd rfl hne⟩ ih

/-- The stage update relates the old and new contact lists by the frame
relation. -/
theorem updateOneContact_frame (cs : List Contact) (cid st : String) (now : Int) :
    List.Forall₂ (framePatch cid st now) cs (updateOneContact cs cid st now) := by
  induction cs with
  | nil => exact List.Forall₂.nil
  | cons b t ih =>
      by_cases hb : (b.id == cid) = true
      · simp only [updateOneContact, if_pos hb]
        refine List.Forall₂.cons ⟨rfl, rfl, rfl, rfl, rfl, ?_, ?_⟩ (framePatch_refl cid st now t)
        · intro hne
          exact absurd (eq_of_beq hb) hne
        · intro _
          exact ⟨eq_of_beq hb, rfl, rfl⟩
      · simp only [updateOneContact, if_neg hb]
        exact List.Forall₂.cons
          ⟨rfl, rfl, rfl, rfl, rfl, fun _ => rfl, fun hne => absurd rfl hne⟩ ih

/-- C5: updateStage fails with 400 on a malformed document key, with 404
when the well-formed key matches no contact, succeeds (setting stage and
updated_at) when a contact matches, and every error is 400 or 404 —
never a 500. -/
theorem C5_updateStage_errors (s : Store) (cid st : String) (now : Int) :
    (isValidObjectId cid = false → update_contact_stage s cid st now = Except.error 400) ∧
    (isValidObjectId cid = true → (∀ c ∈ s.contacts, c.id ≠ cid) →
      update_contact_stage s cid st now = Except.error 404) ∧
    (isValidObjectId cid = true → ∀ c ∈ s.contacts, c.id = cid →
      ∃ s', update_contact_stage s cid st now = Except.ok s' ∧
        ∃ c' ∈ s'.contacts, c'.id = cid ∧ c'.stage = st ∧ c'.updated_at = now) ∧
    (∀ e, update_contact_stage s cid st now = Except.error e → e = 400 ∨ e = 404) := by
  refine ⟨?_, ?_, ?_, ?_⟩
  · intro hv
    simp [update_contact_stage, hv]
  · intro hv hnone
    have hany : s.contacts.any (fun c => c.id == cid) = false := by
      rw [List.any_eq_false]
      intro c hc
      simpa using hnone c hc
    simp [update_contact_stage, hv, hany]
  · intro hv c hc hid
    have hany : s.contacts.any (fun c => c.id == cid) = true := by
      rw [List.any_eq_true]
      exact ⟨c, hc, by simpa using hid⟩
    refine ⟨{ s with contacts := updateOneContact s.contacts cid st now }, ?_, ?_⟩
    · simp [update_contact_stage, hv, hany]
    · exact updateOneContact_found s.contacts cid st now c hc hid
  · intro e he
    by_cases hv : isValidObjectId cid = true
    · by_cases hany : s.contacts.any (fun c => c.id == cid) = true
      · simp [update_contact_stage, hv, hany] at he
      · simp [update_contact_stage, hv, hany] at he
        exact Or.inr he.symm
    · simp [update_contact_stage, Bool.eq_false_iff.mpr hv] at he
      exact Or.inl he.symm

/-- Instantiation of `C5_updateStage_errors` at a concrete store: a
malformed key yields 400 and a matching key succeeds with the patch
applied; hypotheses discharged by evaluation. -/
theorem C5_updateStage_errors_witness :
    update_contact_stage wStore "zz" "engaged" 7 = Except.error 400 ∧
    (∃ s', update_contact_stage wStore "650000000000000000000001" "engaged" 7 = Except.ok s' ∧
      ∃ c' ∈ s'.contacts, c'.id = "650000000000000000000001" ∧ c'.stage = "engaged" ∧
        c'.updated_at = 7) :=
  ⟨(C5_updateStage_errors wStore "zz" "engaged" 7).1 (by decide),
   (C5_updateStage_errors wStore "650000000000000000000001" "engaged" 7).2.2.1 (by decide)
     wContact (by decide) (by decide)⟩

/-- C10: a successful updateStage leaves the metric and message
collections untouched and relates the old and new contact lists by the
frame relation: identity fields preserved, unmatched contacts unchanged,
and any change confined to stage and updated_at of the matched key. -/
theorem C10_update_frame (s : Store) (cid st : String) (now : Int) (s' : Store)
    (h : update_contact_stage s cid st now = Except.ok s') :
    s'.metrics = s.metrics ∧ s'.messages = s.messages ∧
    List.Forall₂ (framePatch cid st now) s.contacts s'.contacts := by
  by_cases hv : isValidObjectId cid = true
  · by_cases hany : s.contacts.any (fun c => c.id == cid) = true
    · simp only [update_contact_stage, hv, hany, if_true, if_pos] at h
      have hs : { s with contacts := updateOneContact s.contacts cid st now } = s' := by
        simpa using h
      subst hs
      exact ⟨rfl, rfl, updateOneContact_frame s.contacts cid st now⟩
    · simp [update_contact_stage, hv, hany] at h
  · simp [update_contact_stage, Bool.eq_false_iff.mpr hv] at h

/-- Instantiation of `C10_update_frame` at a concrete one-contact store,
the successful-update hypothesis discharged by evaluation. -/
theorem C10_update_frame_witness :
    ({ wStore with contacts := [{ wContact with stage := "engaged", updated_at := 7 }] } : Store).metrics = wStore.metrics ∧
    ({ wStore with contacts := [{ wContact with stage := "engaged", updated_at := 7 }] } : Store).messages = wStore.messages ∧
    List.Forall₂ (framePatch "650000000000000000000001" "engaged" 7) wStore.contacts
      ({ wStore with contacts := [{ wContact with stage := "engaged", updated_at := 7 }] } : Store).contacts :=
  C10_update_frame wStore "650000000000000000000001" "engaged" 7 _ (by rfl)

/-- C6 as stated is false: with two distinct messages sharing one
timestamp, the conversation returned for the contact is not strictly
ascending in timestamp. -/
theorem C6_strict_order_counterexample :
    get_conversation tieStore "650000000000000000000001" =
      Except.ok (wContact, [tieMsgA, tieMsgB]) ∧
    tieMsgA.timestamp = tieMsgB.timestamp ∧ tieMsgA ≠ tieMsgB ∧
    ¬ ([tieMsgA, tieMsgB].Pairwise (fun a b => a.timestamp < b.timestamp)) := by
  refine ⟨by rfl, rfl, by decide, ?_⟩
  intro h
  have := (List.pairwise_cons.mp h).1 tieMsgB (by simp)
  exact absurd this (by decide)

/-- C6 (amended): getConversation fails with 400 on a malformed
identifier and 404 when no contact matches; on success it returns a
stored contact with the requested key together with exactly the messages
referencing it, sorted non-decreasing (not strictly) by timestamp. -/
theorem C6_conversation_amended (s : Store) (cid : String) :
    (isValidObjectId cid = false → get_conversation s cid = Except.error 400) ∧
    (isValidObjectId cid = true → (∀ c ∈ s.contacts, c.id ≠ cid) →
      get_conversation s cid = Except.error 404) ∧
    (∀ contact msgs, get_conversation s cid = Except.ok (contact, msgs) →
      contact ∈ s.contacts ∧ contact.id = cid ∧
      msgs.Perm (s.messages.filter (fun m => m.contact_id == cid)) ∧
      msgs.Pairwise (fun a b => a.timestamp ≤ b.timestamp)) := by
  refine ⟨?_, ?_, ?_⟩
  · intro hv
    simp [get_conversation, hv]
  · intro hv hnone
    have hf : s.contacts.find? (fun c => c.id == cid) = none := by
      rw [List.find?_eq_none]
      intro c hc
      simpa using hnone c hc
    simp [get_conversation, hv, hf]
  · intro contact msgs h
    by_cases hv : isValidObjectId cid = true
    · cases hf : s.contacts.find? (fun c => c.id == cid) with
      | none => simp [get_conversation, hv, hf] at h
      | some c =>
          have hmem := List.mem_of_find?_eq_some hf
          have hcid : c.id = cid := by
            simpa using List.find?_some hf
          simp only [get_conversation, hv, if_true, hf] at h
          have hpair : contact = c ∧
              msgs = sortBy tsLe (s.messages.filter (fun m => m.contact_id == cid)) := by
            have h' := h
            rw [Except.ok.injEq, Prod.mk.injEq] at h'
            exact ⟨h'.1.symm, h'.2.symm⟩
          rcases hpair with ⟨rfl, rfl⟩
          refine ⟨hmem, hcid, sortBy_perm _ _, ?_⟩
          exact List.Pairwise.imp (fun hab => of_decide_eq_true hab)
            (pairwise_sortBy tsLe tsLe_trans tsLe_total _)
    · simp [get_conversation, Bool.eq_false_iff.mpr hv] at h

/-- Instantiation of `C6_conversation_amended` at a concrete store: a
malformed key yields 400, and a successful lookup returns the matching
contact plus its sorted messages; hypotheses discharged by evaluation. -/
theorem C6_conversation_amended_witness :
    get_conversation tieStore "zz" = Except.error 400 ∧
    (wContact ∈ tieStore.contacts ∧ wContact.id = "650000000000000000000001" ∧
     ([tieMsgA, tieMsgB] : List Msg).Perm
       (tieStore.messages.filter (fun m => m.contact_id == "650000000000000000000001")) ∧
     ([tieMsgA, tieMsgB] : List Msg).Pairwise (fun a b => a.timestamp ≤ b.timestamp)) :=
  ⟨(C6_conversation_amended tieStore "zz").1 (by decide),
   (C6_conversation_amended tieStore "650000000000000000000001").2.2 wContact
     [tieMsgA, tieMsgB] (by rfl)⟩

unseal Rat.mul Rat.add Rat.sub Rat.inv Rat.ofScientific in
/-- C8 as stated is false: a summary request on a store whose metric
collection is empty runs the seed generator again after startup — the
handler returns the seeded store (28 metric rows) instead of leaving the
store untouched. -/
theorem C8_reseed_counterexample :
    (get_summary 13 0 emptyStore).1.metrics.length = 28 ∧
    emptyStore.metrics.length = 0 ∧
    (get_summary 13 0 emptyStore).1 = seed_sample_data 13 0 emptyStore := by
  refine ⟨by decide, rfl, rfl⟩

/-- C8 (amended): the seed generator inserts metric rows only when the
metric collection is empty and contact/conversation rows only when the
contact collection is empty; the summary endpoint re-invokes it, but
leaves the store untouched whenever the metric collection is
non-empty. -/
theorem C8_seed_guard (today now : Int) (s : Store) :
    (s.metrics ≠ [] → (seed_sample_data today now s).metrics = s.metrics) ∧
    (s.contacts ≠ [] → (seed_sample_data today now s).contacts = s.contacts ∧
      (seed_sample_data today now s).messages = s.messages) ∧
    (s.metrics ≠ [] → (get_summary today now s).1 = s) := by
  have hmet : s.metrics ≠ [] → s.metrics.isEmpty = false := fun h => by
    simpa [List.isEmpty_iff] using h
  refine ⟨?_, ?_, ?_⟩
  · intro h
    by_cases hc : s.contacts.isEmpty <;> simp [seed_sample_data, hmet h, hc]
  · intro h
    have hcon : s.contacts.isEmpty = false := by simpa [List.isEmpty_iff] using h
    by_cases hm : s.metrics.isEmpty <;> simp [seed_sample_data, hm, hcon]
  · intro h
    simp [get_summary, hmet h]

/-- Instantiation of `C8_seed_guard` at a concrete non-empty store,
hypotheses discharged by evaluation. -/
theorem C8_seed_guard_witness :
    (seed_sample_data 1 2 wStore).metrics = wStore.metrics ∧
    (seed_sample_data 1 2 wStore).contacts = wStore.contacts ∧
    (get_summary 1 2 wStore).1 = wStore :=
  ⟨(C8_seed_guard 1 2 wStore).1 (by decide),
   ((C8_seed_guard 1 2 wStore).2.1 (by decide)).1,
   (C8_seed_guard 1 2 wStore).2.2 (by decide)⟩
